import Mathlib

/-!
Verification development for the simulated-device plugin core
(`src/WebApp/App_Data/jobs/continuous/Simulator/devices/simulated_device.py`).

The Python code is shallowly embedded: strings are lists of characters,
Python `str.split`/`str.join` become recursive functions on character lists,
the import machinery (`importlib.import_module`) is modelled as a lookup in
an explicit environment of loadable modules, and exceptions become an
explicit error type returned through `Except`.
-/

namespace SimDev

/-- Embedding of Python `s.split(sep)` for a one-character separator:
`''.split(sep) = ['']`, and each occurrence of `sep` starts a new chunk. -/
def pySplit (sep : Char) : List Char → List (List Char)
  | [] => [[]]
  | c :: rest =>
    match pySplit sep rest with
    | [] => [[]]
    | h :: t => if c = sep then [] :: h :: t else (c :: h) :: t

/-- Embedding of Python `sep.join(chunks)` for a one-character separator. -/
def pyJoin (sep : Char) : List (List Char) → List Char
  | [] => []
  | [x] => x
  | x :: y :: t => x ++ sep :: pyJoin sep (y :: t)

/-- Split a character list at the LAST occurrence of `sep`:
`some (before, after)` when `sep` occurs, `none` otherwise. -/
def rsplitLast (sep : Char) : List Char → Option (List Char × List Char)
  | [] => none
  | c :: rest =>
    match rsplitLast sep rest with
    | some (m, cls) => some (c :: m, cls)
    | none => if c = sep then some ([], rest) else none

theorem pySplit_ne_nil (sep : Char) (s : List Char) : pySplit sep s ≠ [] := by
  cases s with
  | nil => simp [pySplit]
  | cons c rest =>
    simp only [pySplit]
    cases h : pySplit sep rest with
    | nil => simp
    | cons hd tl =>
      by_cases hc : c = sep <;> simp [hc]

theorem pyJoin_pySplit (sep : Char) (s : List Char) :
    pyJoin sep (pySplit sep s) = s := by
  induction s with
  | nil => simp [pySplit, pyJoin]
  | cons c rest ih =>
    simp only [pySplit]
    cases h : pySplit sep rest with
    | nil => exact absurd h (pySplit_ne_nil sep rest)
    | cons hd tl =>
      rw [h] at ih
      by_cases hc : c = sep
      · subst hc
        simp only [if_pos rfl, pyJoin]
        cases tl <;> simpa [pyJoin] using ih
      · simp only [if_neg hc]
        cases tl with
        | nil => simp only [pyJoin] at ih ⊢; rw [ih]
        | cons y t => simp only [pyJoin, List.cons_append] at ih ⊢; rw [ih]

theorem pySplit_no_sep (sep : Char) (s : List Char) (h : sep ∉ s) :
    pySplit sep s = [s] := by
  induction s with
  | nil => rfl
  | cons c rest ih =>
    have hc : c ≠ sep := fun e => h (e ▸ List.mem_cons_self c rest)
    have hr : sep ∉ rest := fun e => h (List.mem_cons_of_mem c e)
    simp only [pySplit, ih hr]
    simp [hc]

theorem pySplit_append_sep (sep : Char) (m last : List Char) (h : sep ∉ last) :
    pySplit sep (m ++ sep :: last) = pySplit sep m ++ [last] := by
  induction m with
  | nil =>
    simp only [List.nil_append, pySplit, pySplit_no_sep sep last h]
    simp [pySplit]
  | cons x m' ih =>
    simp only [List.cons_append, pySplit, List.append_eq]
    rw [ih]
    cases hm : pySplit sep m' with
    | nil => exact absurd hm (pySplit_ne_nil sep m')
    | cons hd tl =>
      by_cases hx : x = sep <;> simp [hx]

theorem rsplitLast_none (sep : Char) (s : List Char)
    (h : rsplitLast sep s = none) : sep ∉ s := by
  induction s with
  | nil => simp
  | cons c rest ih =>
    simp only [rsplitLast] at h
    cases hr : rsplitLast sep rest with
    | some p => rw [hr] at h; cases p; simp at h
    | none =>
      rw [hr] at h
      by_cases hc : c = sep
      · simp [hc] at h
      · intro hmem
        rcases List.mem_cons.mp hmem with he | he
        · exact hc he.symm
        · exact ih hr he

theorem rsplitLast_some (sep : Char) (s : List Char) :
    ∀ m cls, rsplitLast sep s = some (m, cls) →
    s = m ++ sep :: cls ∧ sep ∉ cls := by
  induction s with
  | nil => intro m cls h; simp [rsplitLast] at h
  | cons c rest ih =>
    intro m cls h
    simp only [rsplitLast] at h
    cases hr : rsplitLast sep rest with
    | some p =>
      obtain ⟨m', cls'⟩ := p
      rw [hr] at h
      simp only [Option.some.injEq, Prod.mk.injEq] at h
      obtain ⟨hm, hcls⟩ := h
      obtain ⟨hrest, hnot⟩ := ih m' cls' hr
      subst hcls
      refine ⟨?_, hnot⟩
      rw [← hm, hrest]
      simp
    | none =>
      rw [hr] at h
      by_cases hc : c = sep
      · rw [if_pos hc] at h
        simp only [Option.some.injEq, Prod.mk.injEq] at h
        obtain ⟨hm, hcls⟩ := h
        rw [← hm, ← hcls, hc]
        exact ⟨by simp, rsplitLast_none sep rest hr⟩
      · rw [if_neg hc] at h
        simp at h

/-- Python runtime values, as far as this component observes them.
Callables are opaque references identified by a number; a constructed
device instance records the class it was built from and the three values
bound by `SimulatedDevice.__init__`. -/
inductive PyVal where
  | pyNone
  | num (n : Int)
  | str (s : List Char)
  | callable (id : Nat)
  | deviceInstance (className : List Char)
      (report_state send_telemetry properties : PyVal)
deriving DecidableEq

/-- Python exceptions distinguishable by this component: the ValueError
raised by `importlib.import_module` on an empty name, ModuleNotFoundError,
AttributeError from `getattr`, the TypeError raised by `abc.ABCMeta` when a
class with unimplemented abstract methods is called, the TypeError for a
constructor-arity mismatch, and arbitrary errors raised by device code. -/
inductive PyError where
  | valueErrorEmptyName
  | moduleNotFound (moduleName : List Char)
  | attributeError (moduleName attrName : List Char)
  | typeErrorAbstract (className : List Char)
  | typeErrorBadArguments (className : List Char)
  | deviceError (code : Nat)
deriving DecidableEq

/-- Whether an error is raised by the module-resolution step
(`importlib.import_module`), as opposed to attribute lookup or construction. -/
def PyError.isResolutionKind : PyError → Bool
  | .valueErrorEmptyName => true
  | .moduleNotFound _ => true
  | _ => false

/-- The private state bound by `SimulatedDevice.__init__`: the three
name-mangled fields `__report_state`, `__send_telemetry`, `__properties`. -/
structure DeviceState where
  report_state : PyVal
  send_telemetry : PyVal
  properties : PyVal
deriving DecidableEq

/-- `SimulatedDevice.__init__`: stores the three constructor arguments as
the three private fields, and does nothing else. -/
def simulatedDevice_init (report_state_function send_telemetry_function properties : PyVal) :
    DeviceState :=
  { report_state := report_state_function
    send_telemetry := send_telemetry_function
    properties := properties }

/-- A side effect a device body can perform: calling one of the two bound
callables. These are the only channels the contract hands a device. -/
inductive DeviceEffect where
  | reportState (arg : PyVal)
  | sendTelemetry (arg : PyVal)
deriving DecidableEq

/-- Which concrete callable (and argument) an effect invokes, given the
device state it runs against. -/
def realizeEffect (s : DeviceState) : DeviceEffect → PyVal × PyVal
  | .reportState a => (s.report_state, a)
  | .sendTelemetry a => (s.send_telemetry, a)

/-- Body of the abstract method stub for the first lifecycle hook in
`SimulatedDevice` (`pass`): no state change, no effect. -/
def contractInitStub (s : DeviceState) : DeviceState × List DeviceEffect := (s, [])

/-- Body of the abstract `on_update` stub in `SimulatedDevice` (`pass`). -/
def contractOnUpdateStub (s : DeviceState) (_update_state _payload : PyVal) :
    DeviceState × List DeviceEffect :=
  (s, [])

/-- Body of the abstract `run` stub in `SimulatedDevice` (`pass`). -/
def contractRunStub (s : DeviceState) : DeviceState × List DeviceEffect := (s, [])

/-- The operations declared by the device contract: exactly the three
lifecycle hooks. The contract declares no accessor for the bound fields. -/
inductive ContractOp where
  | opInit
  | opOnUpdate
  | opRun
deriving DecidableEq

/-- Modelled from the spec: a concrete device (external to this repository)
overrides the three lifecycle methods; each body may update the private
state, may raise, and may call the two bound callables — the only
externally visible effects the contract makes available to it. -/
structure ConcreteDevice where
  initImpl : DeviceState → Except PyError DeviceState × List DeviceEffect
  on_updateImpl : DeviceState → PyVal → PyVal → Except PyError DeviceState × List DeviceEffect
  runImpl : DeviceState → Except PyError DeviceState × List DeviceEffect

/-- Invoking the first lifecycle hook on a concrete device dispatches
directly to the override; the contract wraps it in no handler. -/
def invokeInit (d : ConcreteDevice) (s : DeviceState) :
    Except PyError DeviceState × List DeviceEffect :=
  d.initImpl s

/-- Invoking `on_update` on a concrete device dispatches directly to the
override; the contract wraps it in no handler. -/
def invokeOnUpdate (d : ConcreteDevice) (s : DeviceState) (update_state payload : PyVal) :
    Except PyError DeviceState × List DeviceEffect :=
  d.on_updateImpl s update_state payload

/-- Invoking `run` on a concrete device dispatches directly to the
override; the contract wraps it in no handler. -/
def invokeRun (d : ConcreteDevice) (s : DeviceState) :
    Except PyError DeviceState × List DeviceEffect :=
  d.runImpl s

/-- A class object derived from `SimulatedDevice`, as the factory sees it:
its name, which of the three abstract methods it overrides, and its
constructor semantics (which may reject or raise). -/
structure DeviceClass where
  className : List Char
  implInit : Bool
  implOnUpdate : Bool
  implRun : Bool
  ctor : List PyVal → Except PyError DeviceState

/-- Calling a class derived from `SimulatedDevice`: `abc.ABCMeta` (invoked
by the source through `ABC`/`@abstractmethod`) rejects the call with a
TypeError before `__init__` runs when any abstract method is left
unimplemented; otherwise the constructor runs and the fields it binds make
up the returned instance. -/
def instantiateDevice (c : DeviceClass) (args : List PyVal) : Except PyError PyVal :=
  if c.implInit && c.implOnUpdate && c.implRun then
    match c.ctor args with
    | .error e => .error e
    | .ok st => .ok (.deviceInstance c.className st.report_state st.send_telemetry st.properties)
  else
    .error (.typeErrorAbstract c.className)

/-- The `SimulatedDevice` class object itself: all three lifecycle methods
are abstract; its `__init__` takes exactly three parameters and binds them. -/
def simulatedDeviceClass : DeviceClass :=
  { className := ("SimulatedDevice").toList
    implInit := false
    implOnUpdate := false
    implRun := false
    ctor := fun args =>
      match args with
      | [r, t, p] => .ok (simulatedDevice_init r t p)
      | _ => .error (.typeErrorBadArguments (("SimulatedDevice").toList)) }

/-- A module attribute the factory may resolve: either a class derived from
the device contract, or any other Python callable — the factory does not
check which. -/
inductive PySymbol where
  | devClass (c : DeviceClass)
  | pyCallable (f : List PyVal → Except PyError PyVal)

/-- Calling a resolved symbol with the forwarded arguments. -/
def PySymbol.call : PySymbol → List PyVal → Except PyError PyVal
  | .devClass c, args => instantiateDevice c args
  | .pyCallable f, args => f args

/-- A loaded module: its attribute table. -/
structure PyModule where
  attrs : List Char → Option PySymbol

/-- The interpreter's import state: which module names are loadable (this
also covers modules already present in `sys.modules`). -/
structure PyEnv where
  modules : List Char → Option PyModule

/-- Embedding of `importlib.import_module`: an empty name raises
ValueError before any lookup, an unknown name raises ModuleNotFoundError,
otherwise the loaded module is returned. -/
def loadModule (env : PyEnv) (moduleName : List Char) : Except PyError PyModule :=
  if moduleName = [] then .error .valueErrorEmptyName
  else
    match env.modules moduleName with
    | some m => .ok m
    | none => .error (.moduleNotFound moduleName)

/-- Trace of the observable steps `create` performs, in order: the import
attempt, the `getattr` lookup, and the constructor call. -/
inductive FactoryEvent where
  | evImport (moduleName : List Char)
  | evGetattr (attrName : List Char)
  | evCall (attrName : List Char)
deriving DecidableEq

/-- `SimulatorFactory.create`: split the dotted name on `.`, join all but
the last chunk back into the module path, import that module, look the
final chunk up as an attribute, and call the result with the forwarded
arguments. The second component records which steps ran, in their order. -/
def SimulatorFactory.create (env : PyEnv) (full_class_name : List Char) (args : List PyVal) :
    Except PyError PyVal × List FactoryEvent :=
  let parts := pySplit '.' full_class_name
  let moduleName := pyJoin '.' parts.dropLast
  let simple_class_name := parts.getLastD []
  match loadModule env moduleName with
  | .error e => (.error e, [.evImport moduleName])
  | .ok m =>
    match m.attrs simple_class_name with
    | none => (.error (.attributeError moduleName simple_class_name),
               [.evImport moduleName, .evGetattr simple_class_name])
    | some sym => (sym.call args,
               [.evImport moduleName, .evGetattr simple_class_name, .evCall simple_class_name])

/-- Modelled from the spec: "split the name on the last namespace separator
into (module-path, class-name); resolve module-path to a loaded module
(loading it if not already loaded); look up class-name as an attribute of
that module; invoke it as a constructor with construction_args". A name
containing no separator is outside the spec's well-formed inputs; it
degenerates to the empty module path. -/
def createSpec (env : PyEnv) (full_class_name : List Char) (args : List PyVal) :
    Except PyError PyVal × List FactoryEvent :=
  let pair :=
    match rsplitLast '.' full_class_name with
    | some (m, c) => (m, c)
    | none => (([] : List Char), full_class_name)
  let moduleName := pair.1
  let simple_class_name := pair.2
  match loadModule env moduleName with
  | .error e => (.error e, [.evImport moduleName])
  | .ok m =>
    match m.attrs simple_class_name with
    | none => (.error (.attributeError moduleName simple_class_name),
               [.evImport moduleName, .evGetattr simple_class_name])
    | some sym => (sym.call args,
               [.evImport moduleName, .evGetattr simple_class_name, .evCall simple_class_name])

/-- A concrete, fully implemented device class used to exercise the factory. -/
def thermoClass : DeviceClass :=
  { className := ("Thermostat").toList
    implInit := true
    implOnUpdate := true
    implRun := true
    ctor := fun args =>
      match args with
      | [r, t, p] => .ok (simulatedDevice_init r t p)
      | _ => .error (.typeErrorBadArguments (("Thermostat").toList)) }

/-- A device class that leaves `run` abstract. -/
def halfClass : DeviceClass :=
  { className := ("HalfDevice").toList
    implInit := true
    implOnUpdate := true
    implRun := false
    ctor := fun args =>
      match args with
      | [r, t, p] => .ok (simulatedDevice_init r t p)
      | _ => .error (.typeErrorBadArguments (("HalfDevice").toList)) }

/-- A module attribute that raises when called. -/
def boomFn : List PyVal → Except PyError PyVal := fun _ => .error (.deviceError 7)

/-- A module attribute that is not a class at all: a plain function. -/
def makeNumFn : List PyVal → Except PyError PyVal := fun _ => .ok (.num 42)

/-- The attribute table of the test module `pkg.devices`. -/
def devicesModule : PyModule :=
  { attrs := fun n =>
      if n = ("Thermostat").toList then some (.devClass thermoClass)
      else if n = ("Boom").toList then some (.pyCallable boomFn)
      else if n = ("MakeNum").toList then some (.pyCallable makeNumFn)
      else none }

/-- A test import environment with the single loadable module `pkg.devices`. -/
def testEnv : PyEnv :=
  { modules := fun n => if n = ("pkg.devices").toList then some devicesModule else none }

/-- A sample concrete device used to evaluate the lifecycle theorems. -/
def demoDevice : ConcreteDevice :=
  { initImpl := fun s => (.ok s, [])
    on_updateImpl := fun s update_state payload =>
      (.ok { s with properties := payload },
       [.reportState update_state, .sendTelemetry payload])
    runImpl := fun s => (.ok s, [.sendTelemetry s.properties]) }

/-- A sample device state with distinct bound callables. -/
def demoState : DeviceState := simulatedDevice_init (.callable 0) (.callable 1) (.num 10)

/-- The source's name computation (split on every dot, rejoin all but the
last chunk, take the last chunk) agrees with splitting at the last
separator. -/
theorem splitJoin_eq_rsplitLast (s : List Char) :
    (pyJoin '.' (pySplit '.' s).dropLast, (pySplit '.' s).getLastD []) =
    (match rsplitLast '.' s with
     | some (m, c) => (m, c)
     | none => (([] : List Char), s)) := by
  cases hr : rsplitLast '.' s with
  | none =>
    have hnot := rsplitLast_none _ _ hr
    rw [pySplit_no_sep _ _ hnot]
    simp [pyJoin]
  | some p =>
    obtain ⟨m, cls⟩ := p
    obtain ⟨hs, hnot⟩ := rsplitLast_some _ s m cls hr
    subst hs
    rw [pySplit_append_sep _ _ _ hnot, List.dropLast_concat, pyJoin_pySplit]
    simp [List.getLastD_concat]

/-- Claim C1: for every fully-qualified name that resolves to a loadable
module containing a class that implements the three lifecycle methods and
whose constructor accepts the supplied arguments, `SimulatorFactory.create`
returns a non-null instance of exactly that resolved class. -/
theorem create_wellformed_returns_instance
    (env : PyEnv) (full_class_name : List Char) (args : List PyVal)
    (mod : PyModule) (c : DeviceClass) (st : DeviceState)
    (hmod : loadModule env (pyJoin '.' (pySplit '.' full_class_name).dropLast) = .ok mod)
    (hattr : mod.attrs ((pySplit '.' full_class_name).getLastD []) = some (.devClass c))
    (himpl : c.implInit = true ∧ c.implOnUpdate = true ∧ c.implRun = true)
    (hctor : c.ctor args = .ok st) :
    (SimulatorFactory.create env full_class_name args).1 =
      .ok (.deviceInstance c.className st.report_state st.send_telemetry st.properties) ∧
    PyVal.deviceInstance c.className st.report_state st.send_telemetry st.properties ≠
      PyVal.pyNone := by
  refine ⟨?_, by simp⟩
  rw [List.getLastD_eq_getLast?] at hattr
  simp [SimulatorFactory.create, hmod, hattr, PySymbol.call, instantiateDevice,
    himpl.1, himpl.2.1, himpl.2.2, hctor]

/-- The well-formed-name theorem evaluated at a concrete environment:
creating `pkg.devices.Thermostat` yields a `Thermostat` instance. -/
theorem create_wellformed_returns_instance_witness :
    (SimulatorFactory.create testEnv (("pkg.devices.Thermostat").toList)
        [.callable 0, .callable 1, .num 10]).1 =
      .ok (.deviceInstance (("Thermostat").toList) (.callable 0) (.callable 1) (.num 10)) ∧
    PyVal.deviceInstance (("Thermostat").toList) (.callable 0) (.callable 1) (.num 10) ≠
      PyVal.pyNone :=
  create_wellformed_returns_instance testEnv (("pkg.devices.Thermostat").toList)
    [.callable 0, .callable 1, .num 10] devicesModule thermoClass
    (simulatedDevice_init (.callable 0) (.callable 1) (.num 10))
    (by rfl) (by rfl) ⟨rfl, rfl, rfl⟩ (by rfl)

/-- Claim C2: calling the contract class itself, or any subclass that
leaves one of the three lifecycle methods abstract, fails with the
capability-mismatch TypeError; the constructor body is never consulted. -/
theorem abstract_instantiation_fails (c : DeviceClass) (args : List PyVal)
    (h : c.implInit = false ∨ c.implOnUpdate = false ∨ c.implRun = false) :
    instantiateDevice c args = .error (.typeErrorAbstract c.className) ∧
    (∀ f, instantiateDevice { c with ctor := f } args =
      .error (.typeErrorAbstract c.className)) ∧
    (∀ args2, instantiateDevice simulatedDeviceClass args2 =
      .error (.typeErrorAbstract (("SimulatedDevice").toList))) := by
  have hcond : (c.implInit && c.implOnUpdate && c.implRun) = false := by
    rcases h with h | h | h <;> simp [h]
  refine ⟨?_, fun f => ?_, fun args2 => ?_⟩
  · simp [instantiateDevice, hcond]
  · simp [instantiateDevice, hcond]
  · simp [instantiateDevice, simulatedDeviceClass]

/-- The abstract-instantiation theorem evaluated on a subclass that omits
`run`. -/
theorem abstract_instantiation_fails_witness :
    instantiateDevice halfClass [] = .error (.typeErrorAbstract (("HalfDevice").toList)) :=
  (abstract_instantiation_fails halfClass [] (Or.inr (Or.inr rfl))).1

/-- Claim C3: `SimulatorFactory.create` implements exactly the specified
algorithm — split the fully-qualified name at the last namespace separator
into module-path and class-name, resolve the module-path to a loaded
module, look the class-name up as an attribute of it, and invoke the
result with the forwarded arguments, in that order. -/
theorem create_eq_spec_algorithm (env : PyEnv) (full_class_name : List Char)
    (args : List PyVal) :
    SimulatorFactory.create env full_class_name args =
      createSpec env full_class_name args := by
  have h := splitJoin_eq_rsplitLast full_class_name
  simp only [SimulatorFactory.create, createSpec]
  rw [← h]

/-- Claim C4: when the module loads but the class segment is absent from
it, `create` fails with the attribute-lookup error, a failure kind distinct
from the resolution kind raised when the module itself cannot load. -/
theorem create_missing_attr_lookup_error
    (env : PyEnv) (full_class_name : List Char) (args : List PyVal) (mod : PyModule)
    (hmod : loadModule env (pyJoin '.' (pySplit '.' full_class_name).dropLast) = .ok mod)
    (hattr : mod.attrs ((pySplit '.' full_class_name).getLastD []) = none) :
    (SimulatorFactory.create env full_class_name args).1 =
      .error (.attributeError (pyJoin '.' (pySplit '.' full_class_name).dropLast)
        ((pySplit '.' full_class_name).getLastD [])) ∧
    (PyError.attributeError (pyJoin '.' (pySplit '.' full_class_name).dropLast)
        ((pySplit '.' full_class_name).getLastD [])).isResolutionKind = false := by
  refine ⟨?_, rfl⟩
  rw [List.getLastD_eq_getLast?] at hattr
  simp [SimulatorFactory.create, hmod, hattr]

/-- The lookup-error theorem evaluated at `pkg.devices.NoSuchDevice`, whose
module loads while the attribute is absent. -/
theorem create_missing_attr_lookup_error_witness :
    (SimulatorFactory.create testEnv (("pkg.devices.NoSuchDevice").toList) []).1 =
      .error (.attributeError (("pkg.devices").toList) (("NoSuchDevice").toList)) ∧
    (PyError.attributeError (("pkg.devices").toList)
      (("NoSuchDevice").toList)).isResolutionKind = false :=
  create_missing_attr_lookup_error testEnv (("pkg.devices.NoSuchDevice").toList) []
    devicesModule (by rfl) (by rfl)

/-- Claim C5: when the module segment cannot be loaded, `create` fails with
a resolution-kind error and performs neither the attribute lookup nor the
constructor call. -/
theorem create_module_load_failure_resolution_error
    (env : PyEnv) (full_class_name : List Char) (args : List PyVal) (e : PyError)
    (hmod : loadModule env (pyJoin '.' (pySplit '.' full_class_name).dropLast) = .error e) :
    SimulatorFactory.create env full_class_name args =
      (.error e, [.evImport (pyJoin '.' (pySplit '.' full_class_name).dropLast)]) ∧
    e.isResolutionKind = true := by
  constructor
  · simp [SimulatorFactory.create, hmod]
  · unfold loadModule at hmod
    by_cases h0 : pyJoin '.' (pySplit '.' full_class_name).dropLast = []
    · rw [if_pos h0] at hmod
      cases hmod
      rfl
    · rw [if_neg h0] at hmod
      cases hm : env.modules (pyJoin '.' (pySplit '.' full_class_name).dropLast) with
      | some m => rw [hm] at hmod; cases hmod
      | none => rw [hm] at hmod; cases hmod; rfl

/-- The resolution-error theorem evaluated at `no.such.Module`. -/
theorem create_module_load_failure_resolution_error_witness :
    SimulatorFactory.create testEnv (("no.such.Module").toList) [] =
      (.error (.moduleNotFound (("no.such").toList)),
       [.evImport (("no.such").toList)]) ∧
    (PyError.moduleNotFound (("no.such").toList)).isResolutionKind = true :=
  create_module_load_failure_resolution_error testEnv (("no.such.Module").toList) []
    (.moduleNotFound (("no.such").toList)) (by rfl)

/-- Claim C6: every error arising inside `create` (resolution or
construction) and every error raised inside a concrete device's lifecycle
methods reaches the immediate caller unmodified: `create` forwards the
exact error value of the failing step, and the contract's method dispatch
adds no handler, translation, retry, or fallback around the overrides. -/
theorem create_and_contract_propagate_errors :
    (∀ env full_class_name args e,
      loadModule env (pyJoin '.' (pySplit '.' full_class_name).dropLast) = .error e →
      (SimulatorFactory.create env full_class_name args).1 = .error e) ∧
    (∀ env full_class_name args mod sym e,
      loadModule env (pyJoin '.' (pySplit '.' full_class_name).dropLast) = .ok mod →
      mod.attrs ((pySplit '.' full_class_name).getLastD []) = some sym →
      sym.call args = .error e →
      (SimulatorFactory.create env full_class_name args).1 = .error e) ∧
    (∀ d s, invokeInit d s = d.initImpl s) ∧
    (∀ d s update_state payload,
      invokeOnUpdate d s update_state payload = d.on_updateImpl s update_state payload) ∧
    (∀ d s, invokeRun d s = d.runImpl s) := by
  refine ⟨?_, ?_, fun d s => rfl, fun d s us p => rfl, fun d s => rfl⟩
  · intro env s args e hmod
    simp [SimulatorFactory.create, hmod]
  · intro env s args mod sym e hmod hattr hcall
    rw [List.getLastD_eq_getLast?] at hattr
    simp [SimulatorFactory.create, hmod, hattr, hcall]

/-- The propagation theorem evaluated at a failing import and at a module
attribute that raises when called. -/
theorem create_and_contract_propagate_errors_witness :
    (SimulatorFactory.create testEnv (("no.such.Module").toList) []).1 =
      .error (.moduleNotFound (("no.such").toList)) ∧
    (SimulatorFactory.create testEnv (("pkg.devices.Boom").toList) []).1 =
      .error (.deviceError 7) :=
  ⟨create_and_contract_propagate_errors.1 testEnv (("no.such.Module").toList) []
      (.moduleNotFound (("no.such").toList)) (by rfl),
   create_and_contract_propagate_errors.2.1 testEnv (("pkg.devices.Boom").toList) []
      devicesModule (.pyCallable boomFn) (.deviceError 7) (by rfl) (by rfl) (by rfl)⟩

/-- Claim C7: construction binds exactly the three supplied references as
the instance's private fields, none of the contract's own operations ever
changes them, and the contract's declared operations are exactly the three
lifecycle hooks — no accessor for the fields is part of the contract. -/
theorem device_state_bound_at_construction :
    (∀ r t p, (simulatedDevice_init r t p).report_state = r ∧
              (simulatedDevice_init r t p).send_telemetry = t ∧
              (simulatedDevice_init r t p).properties = p) ∧
    (∀ s, (contractInitStub s).1 = s) ∧
    (∀ s update_state payload, (contractOnUpdateStub s update_state payload).1 = s) ∧
    (∀ s, (contractRunStub s).1 = s) ∧
    (∀ op : ContractOp, op = .opInit ∨ op = .opOnUpdate ∨ op = .opRun) := by
  refine ⟨fun r t p => ⟨rfl, rfl, rfl⟩, fun s => rfl, fun s us p => rfl, fun s => rfl,
    fun op => ?_⟩
  cases op
  · exact Or.inl rfl
  · exact Or.inr (Or.inl rfl)
  · exact Or.inr (Or.inr rfl)

/-- Claim C8: every externally observable side effect available to a
concrete device's `on_update` body is a call through one of the two bound
callables — realized against the device's state, each emitted effect
targets either the bound report-state callable or the bound send-telemetry
callable. -/
theorem on_update_only_bound_callables
    (d : ConcreteDevice) (s : DeviceState) (update_state payload : PyVal)
    (e : DeviceEffect) (he : e ∈ (d.on_updateImpl s update_state payload).2) :
    (realizeEffect s e).1 = s.report_state ∨
    (realizeEffect s e).1 = s.send_telemetry := by
  cases e with
  | reportState a => exact Or.inl rfl
  | sendTelemetry a => exact Or.inr rfl

/-- The frame theorem evaluated on a sample device that reports and sends
telemetry from `on_update`. -/
theorem on_update_only_bound_callables_witness :
    (realizeEffect demoState (DeviceEffect.reportState (.num 1))).1 =
      demoState.report_state ∨
    (realizeEffect demoState (DeviceEffect.reportState (.num 1))).1 =
      demoState.send_telemetry :=
  on_update_only_bound_callables demoDevice demoState (.num 1) (.num 2)
    (DeviceEffect.reportState (.num 1)) (by decide)

/-- Claim C9: an input containing no namespace separator (including the
empty string) yields the empty module path, and `create` fails inside
module resolution with the error raised on an empty module name, reaching
neither the attribute lookup nor the constructor call. -/
theorem create_no_separator_empty_module (env : PyEnv) (s : List Char)
    (args : List PyVal) (h : ('.') ∉ s) :
    SimulatorFactory.create env s args =
      (.error .valueErrorEmptyName, [.evImport []]) ∧
    PyError.valueErrorEmptyName.isResolutionKind = true := by
  refine ⟨?_, rfl⟩
  simp only [SimulatorFactory.create]
  rw [pySplit_no_sep _ _ h]
  simp [pyJoin, loadModule]

/-- The no-separator theorem evaluated at the bare name `Thermostat`. -/
theorem create_no_separator_empty_module_witness :
    SimulatorFactory.create testEnv (("Thermostat").toList) [] =
      (.error .valueErrorEmptyName, [.evImport []]) ∧
    PyError.valueErrorEmptyName.isResolutionKind = true :=
  create_no_separator_empty_module testEnv (("Thermostat").toList) [] (by decide)

/-- Claim C10: `create` performs no type or conformance check on the
resolved symbol: whatever attribute is found under the class-name segment
is invoked with the forwarded arguments, and `create` returns exactly what
that invocation produces. -/
theorem create_no_conformance_check
    (env : PyEnv) (full_class_name : List Char) (args : List PyVal)
    (mod : PyModule) (sym : PySymbol)
    (hmod : loadModule env (pyJoin '.' (pySplit '.' full_class_name).dropLast) = .ok mod)
    (hattr : mod.attrs ((pySplit '.' full_class_name).getLastD []) = some sym) :
    (SimulatorFactory.create env full_class_name args).1 = sym.call args := by
  rw [List.getLastD_eq_getLast?] at hattr
  simp [SimulatorFactory.create, hmod, hattr]

/-- The no-conformance-check theorem evaluated on a module attribute that
is a plain function rather than a device class. -/
theorem create_no_conformance_check_witness :
    (SimulatorFactory.create testEnv (("pkg.devices.MakeNum").toList) []).1 =
      PySymbol.call (.pyCallable makeNumFn) [] :=
  create_no_conformance_check testEnv (("pkg.devices.MakeNum").toList) []
    devicesModule (.pyCallable makeNumFn) (by rfl) (by rfl)

end SimDev
